import Mathlib

/-!
Shallow embedding of the wis2watch MQTT fleet supervisor core
(`src/wis2watch/mqtt/client.py`, `src/wis2watch/mqtt/service.py`,
`src/wis2watch/mqtt/tasks.py`, and the model classes in
`src/wis2watch/core/models.py`), together with theorems settling the
spec claims about it.

Modelling conventions:
- wall-clock instants are plain `Int` values in **milliseconds**;
  the Python code compares `timedelta.total_seconds()` against the
  constants 5.0, 0.5, 10 and 60 seconds, which become 5000, 500, 10000
  and 60000 here;
- the Django cache (Redis-backed shared KV store) is an association
  list from string keys to entries carrying the stored dict and the
  `timeout` argument given to `cache.set`;
- library calls that leave the process (paho network I/O, Celery
  `.delay`, channel-layer broadcasts) are modelled by returning the
  would-be payload to the caller (e.g. a flush returns the batch that
  was handed to `process_mqtt_message_batch`);
- `datetime.fromisoformat` and `core.sync.sync_metadata` are
  parameters of the message-processor embedding (an `Env`): the former
  is an arbitrary partial parse function (`none` models `ValueError`),
  the latter an arbitrary catalogue update, since both are external to
  the functions under verification.
-/

set_option maxRecDepth 8000
set_option maxHeartbeats 1000000

namespace Wis2Watch

/-! ## JSON payloads (the WIS2 notification message shape read by the code)

`payload.get(k)` on a dict is modelled by `Option` fields; a `Link` is one
entry of the `links` array, read via `link.get('rel')` / `link.get('href', '')`. -/

/-- One entry of the message `links` array. -/
structure Link where
  rel : Option String
  href : Option String
deriving DecidableEq, Repr

/-- The `properties` object of a notification message. -/
structure Props where
  wigos_station_identifier : Option String
  metadata_id : Option String
  datetime : Option String
  pubtime : Option String
  data_id : Option String
deriving DecidableEq, Repr

/-- A decoded notification message payload. -/
structure Payload where
  id : Option String
  properties : Option Props
  links : Option (List Link)
deriving DecidableEq, Repr

/-- The empty dict default of `payload.get('properties', {})`. -/
def defaultProps : Props :=
  { wigos_station_identifier := none, metadata_id := none, datetime := none,
    pubtime := none, data_id := none }

/-- Python truthiness on an optional string: `None` and `""` are falsy.
Returns the string exactly when it is truthy. -/
def truthyStr : Option String → Option String
  | none => none
  | some s => if s = "" then none else some s

/-! ## MQTTNodeClient (mqtt/client.py) -/

/-- `ClientState` enum (client.py lines 16-22). -/
inductive ClientState where
  | DISCONNECTED
  | CONNECTING
  | CONNECTED
  | STOPPING
  | ERROR
deriving DecidableEq, Repr

/-- One element of a client batch buffer: the dict built at
client.py lines 243-248 (`node_id`, `topic`, `payload`, `timestamp`). -/
structure MessageData where
  node_id : Nat
  topic : String
  payload : Payload
  timestamp : Int
deriving DecidableEq, Repr

/-- `MESSAGE_RATE_WINDOW = 60` seconds (client.py line 31), in ms. -/
def MESSAGE_RATE_WINDOW : Int := 60000

/-- `BATCH_SIZE = 50` (client.py line 34). -/
def BATCH_SIZE : Nat := 50

/-- `BATCH_TIMEOUT = 5.0` seconds (client.py line 35), in ms. -/
def BATCH_TIMEOUT : Int := 5000

/-- `WS_BROADCAST_MIN_INTERVAL = 0.5` seconds (client.py line 39), in ms. -/
def WS_BROADCAST_MIN_INTERVAL : Int := 500

/-- `STATUS_UPDATE_INTERVAL = 10` seconds (client.py line 42), in ms. -/
def STATUS_UPDATE_INTERVAL : Int := 10000

/-- `MAX_MESSAGE_TIMES_STORED = 1000` (client.py line 44). -/
def MAX_MESSAGE_TIMES_STORED : Nat := 1000

/-- The mutable state of one `MQTTNodeClient` (client.py `__init__`,
lines 46-98), restricted to the fields the claims are about. -/
structure MQTTNodeClient where
  node_id : Nat
  is_connected : Bool
  state : ClientState
  previous_state : Option ClientState
  state_changed_at : Int
  message_count : Nat
  last_message_time : Option Int
  messages_per_minute : Nat
  message_times : List Int
  last_status_update : Int
  last_ws_broadcast : Int
  message_buffer : List MessageData
  last_batch_flush : Int
  last_error : Option String
  error_count : Nat
deriving DecidableEq, Repr

/-- `_change_state` (client.py lines 100-119): record the previous state,
set the new one, timestamp the transition, and on an error argument also
record it and bump `error_count`. (The cache/broadcast side effects do not
touch client state.) -/
def changeState (c : MQTTNodeClient) (newState : ClientState) (now : Int)
    (error : Option String) : MQTTNodeClient :=
  let c1 := { c with previous_state := some c.state, state := newState,
                     state_changed_at := now }
  match error with
  | some e => { c1 with last_error := some e, error_count := c1.error_count + 1 }
  | none => c1

/-- Python negative-index slice `l[-n:]`: the last `n` elements. -/
def lastN (n : Nat) (l : List Int) : List Int :=
  l.drop (l.length - n)

/-- The rate-ring update of `_on_message` (client.py lines 226-232):
append the arrival time, keep the last `MAX_MESSAGE_TIMES_STORED`
entries, and of those keep only the ones newer than `now - 60 s`. -/
def updateMessageTimes (times : List Int) (now : Int) : List Int :=
  (lastN MAX_MESSAGE_TIMES_STORED (times ++ [now])).filter
    (fun t => decide (now - MESSAGE_RATE_WINDOW < t))

/-- `_flush_buffer` (client.py lines 193-214): if the buffer is non-empty,
atomically swap it out, stamp `_last_batch_flush`, and hand the batch to
the `process_mqtt_message_batch` Celery task (returned here). -/
def flushBuffer (now : Int) (c : MQTTNodeClient) :
    MQTTNodeClient × List MessageData :=
  if c.message_buffer.isEmpty then (c, [])
  else ({ c with message_buffer := [], last_batch_flush := now },
        c.message_buffer)

/-- Result of one `_on_message` callback: the new client state, the batch
handed to Celery (empty when no flush fired), and whether a sampled copy
was broadcast to the WebSocket channel. -/
structure OnMessageResult where
  client : MQTTNodeClient
  flushed : List MessageData
  ws_broadcast : Bool
deriving Repr

/-- `_on_message` (client.py lines 216-285). `decoded` is the outcome of
`json.loads(msg.payload.decode())`: `none` models a `JSONDecodeError`.
Counters and the rate ring are updated first; on decode failure
`error_count` is bumped and the handler returns; on success the message
is buffered, the flush condition (size >= BATCH_SIZE or time since last
flush >= BATCH_TIMEOUT) is checked, then the WS and status throttles run. -/
def onMessage (c : MQTTNodeClient) (now : Int) (topic : String)
    (decoded : Option Payload) : OnMessageResult :=
  let times := updateMessageTimes c.message_times now
  let c1 := { c with message_count := c.message_count + 1,
                     last_message_time := some now,
                     message_times := times,
                     messages_per_minute := times.length }
  match decoded with
  | none =>
    { client := { c1 with error_count := c1.error_count + 1 },
      flushed := [], ws_broadcast := false }
  | some payload =>
    let md : MessageData :=
      { node_id := c1.node_id, topic := topic, payload := payload,
        timestamp := now }
    let c2 := { c1 with message_buffer := c1.message_buffer ++ [md] }
    let shouldFlush : Bool :=
      decide (BATCH_SIZE ≤ c2.message_buffer.length) ||
      decide (BATCH_TIMEOUT ≤ now - c2.last_batch_flush)
    let flushed := if shouldFlush then flushBuffer now c2 else (c2, [])
    let c3 := flushed.1
    let wsOk : Bool := decide (WS_BROADCAST_MIN_INTERVAL ≤ now - c3.last_ws_broadcast)
    let c4 := if wsOk then { c3 with last_ws_broadcast := now } else c3
    let c5 :=
      if STATUS_UPDATE_INTERVAL < now - c4.last_status_update then
        { c4 with last_status_update := now }
      else c4
    { client := c5, flushed := flushed.2, ws_broadcast := wsOk }

/-- `disconnect` (client.py lines 422-444), the stop operation: flush the
remaining buffer, transition to STOPPING, stop the network loop and close
the session, clear `is_connected` and the rate ring, transition to
DISCONNECTED. Returns the batch flushed on the way out. -/
def clientDisconnect (now : Int) (c : MQTTNodeClient) :
    MQTTNodeClient × List MessageData :=
  let fl := flushBuffer now c
  let c2 := changeState fl.1 ClientState.STOPPING now none
  let c3 := { c2 with is_connected := false, message_times := [] }
  (changeState c3 ClientState.DISCONNECTED now none, fl.2)

/-! ## WIS2Node (core/models.py lines 15-148) -/

/-- The `WIS2Node` Django model, restricted to the fields the supervisor
core reads. `status` is one of "active" / "inactive" / "error";
`mqtt_host`, `mqtt_username`, `mqtt_password` are blank-able CharFields. -/
structure WIS2Node where
  id : Nat
  name : String
  mqtt_host : String
  mqtt_port : Nat
  mqtt_username : String
  mqtt_password : String
  mqtt_use_tls : Bool
  status : String
deriving DecidableEq, Repr

/-- Python attribute access `node.lock_key` as performed by
`monitor_all_active_nodes` (mqtt/tasks.py line 118). The `WIS2Node` class
(core/models.py lines 15-148) defines no field, property or method named
`lock_key` and none of its base classes supplies one, so the access raises
`AttributeError`; the missing attribute is modelled as `none`. -/
def WIS2Node.lockKeyAttr (_ : WIS2Node) : Option String := none

/-! ## Shared KV store (Django cache) -/

/-- An ownership-lock dict as written by `_acquire_lock` /
`_refresh_lock` (mqtt/service.py lines 57-61 and 81-86); `_acquire_lock`
writes no `refreshed_at` key, modelled by `none`. -/
structure LockData where
  acquired_at : Int
  node_id : Nat
  owner : String
  refreshed_at : Option Int
deriving DecidableEq, Repr

/-- One cache slot: the stored lock dict and the `timeout` (TTL, seconds)
passed to `cache.set` (`none` models `timeout=None`). -/
structure CacheEntry where
  data : LockData
  ttl : Option Nat
deriving DecidableEq, Repr

/-- The shared KV store, as an association list keyed by cache-key string. -/
abbrev Cache := List (String × CacheEntry)

/-- `cache.get(key)`. -/
def cacheGet (cache : Cache) (key : String) : Option CacheEntry :=
  (cache.find? (fun p => p.1 == key)).map (fun p => p.2)

/-- `cache.set(key, value, timeout)`: overwrite the slot for `key`. -/
def cacheSet (cache : Cache) (key : String) (entry : CacheEntry) : Cache :=
  (key, entry) :: cache.filter (fun p => p.1 != key)

/-- `cache.delete(key)`. -/
def cacheDelete (cache : Cache) (key : String) : Cache :=
  cache.filter (fun p => p.1 != key)

/-! ## MQTTMonitoringService locks (mqtt/service.py) -/

/-- `LOCK_TIMEOUT = 600` seconds (service.py line 18). -/
def LOCK_TIMEOUT : Nat := 600

/-- `_get_lock_key` (service.py lines 28-30). -/
def getLockKey (node_id : Nat) : String :=
  "mqtt_node_" ++ toString node_id ++ "_lock"

/-- `_acquire_lock` (service.py lines 32-66), for instance id `self` at
time `now`: read the lock; if present and owned by `self`, succeed
leaving the cache unchanged; otherwise (absent, or owned by another
instance, treated as a zombie) write a fresh lock owned by `self` with
TTL `LOCK_TIMEOUT`. Always returns `true`. -/
def acquireLock (self : String) (now : Int) (node_id : Nat)
    (cache : Cache) : Bool × Cache :=
  let key := getLockKey node_id
  match cacheGet cache key with
  | some entry =>
    if entry.data.owner = self then (true, cache)
    else
      (true, cacheSet cache key
        { data := { acquired_at := now, node_id := node_id, owner := self,
                    refreshed_at := none },
          ttl := some LOCK_TIMEOUT })
  | none =>
    (true, cacheSet cache key
      { data := { acquired_at := now, node_id := node_id, owner := self,
                  refreshed_at := none },
        ttl := some LOCK_TIMEOUT })

/-- `_refresh_lock` (service.py lines 73-87): preserve the stored
`acquired_at` when a lock is present (defaulting to `now`), and overwrite
the slot with owner `self`, `refreshed_at = now` and a fresh TTL. -/
def refreshLock (self : String) (now : Int) (node_id : Nat)
    (cache : Cache) : Cache :=
  let key := getLockKey node_id
  let acquired_at :=
    match cacheGet cache key with
    | some entry => entry.data.acquired_at
    | none => now
  cacheSet cache key
    { data := { acquired_at := acquired_at, node_id := node_id,
                owner := self, refreshed_at := some now },
      ttl := some LOCK_TIMEOUT }

/-- `refresh_all_locks` (service.py lines 202-214): snapshot the client
map and refresh the lock of each client **only when its `is_connected`
flag is set**. -/
def refreshAllLocks (self : String) (now : Int)
    (clients : List (Nat × MQTTNodeClient)) (cache : Cache) : Cache :=
  clients.foldl
    (fun acc p => if p.2.is_connected then refreshLock self now p.1 acc else acc)
    cache

/-! ## Client setup (mqtt/client.py `_setup_client`, mqtt/service.py `start_node`) -/

/-- The paho `mqtt.Client` configuration accumulated by `_setup_client`
(client.py lines 121-139). A freshly constructed paho client has no TLS
context until `tls_set` is called; `tls_configured` records whether any
`tls_set` call happened. -/
structure PahoClient where
  client_id : String
  protocol : String
  username : Option String
  password : Option String
  tls_configured : Bool
  reconnect_min : Nat
  reconnect_max : Nat
deriving DecidableEq, Repr

/-- `_setup_client` (client.py lines 121-139): build the paho client with
a per-session client id and MQTT v5, call `username_pw_set` when both
username and password are truthy, install the callbacks, and set the
reconnect backoff to [1 s, 120 s]. The function contains no `tls_set`
call, so `tls_configured` is never set. -/
def setupClient (node_id : Nat) (epoch_s : Int)
    (username password : Option String) : PahoClient :=
  let base : PahoClient :=
    { client_id := "wis2watch_node_" ++ toString node_id ++ "_" ++ toString epoch_s,
      protocol := "MQTTv5", username := none, password := none,
      tls_configured := false, reconnect_min := 1, reconnect_max := 120 }
  match truthyStr username, truthyStr password with
  | some u, some p => { base with username := some u, password := some p }
  | _, _ => base

/-- The client construction performed by `start_node`
(service.py lines 114-123): the `MQTTNodeClient` constructor is called
with the node row's MQTT fields and runs `_setup_client`; no TLS
configuration happens anywhere on this path either. -/
def startNodeClientSetup (node : WIS2Node) (epoch_s : Int) : PahoClient :=
  setupClient node.id epoch_s (some node.mqtt_username) (some node.mqtt_password)

/-! ## monitor_all_active_nodes (mqtt/tasks.py lines 99-135) -/

/-- The body of the per-node loop of `monitor_all_active_nodes`,
accumulating the node ids for which `start_mqtt_monitoring.delay` was
called. Each iteration first evaluates `node.lock_key`
(`WIS2Node.lockKeyAttr`); when the attribute is missing the raised
`AttributeError` aborts the whole loop (second component `true`),
to be swallowed by the task's blanket `except`. Otherwise the node is
skipped when its lock is present and enqueued when it is absent. -/
def monitorLoop (cache : Cache) :
    List WIS2Node → List Nat → List Nat × Bool
  | [], acc => (acc, false)
  | node :: rest, acc =>
    match node.lockKeyAttr with
    | none => (acc, true)
    | some key =>
      if (cacheGet cache key).isSome then monitorLoop cache rest acc
      else monitorLoop cache rest (acc ++ [node.id])

/-- `monitor_all_active_nodes` (tasks.py lines 99-135): filter the nodes
with `status == 'active'`, run the loop, and (the blanket `except Exception`
at line 134) return whatever start tasks were enqueued before any abort. -/
def monitorAllActiveNodes (nodes : List WIS2Node) (cache : Cache) : List Nat :=
  (monitorLoop cache (nodes.filter (fun n => n.status == "active")) []).1

/-! ## Catalogue and observation log (core/models.py) -/

/-- The `Station` model (core/models.py lines 203-231), restricted to the
unique WIGOS identifier the processor looks up. -/
structure Station where
  wigos_id : String
deriving DecidableEq, Repr

/-- The `Dataset` model (core/models.py lines 160-200), restricted to the
unique URN identifier the processor looks up. -/
structure Dataset where
  identifier : String
deriving DecidableEq, Repr

/-- An unsaved `StationMQTTMessageLog` instance as built by
`_prepare_observation_record` (tasks.py lines 244-253). The foreign keys
are represented by the looked-up natural keys. `time` (the Timescale
hypertable timestamp, set from `properties.datetime`) is `Option` because
the constructor is invoked with `observation_datetime`, which may be `None`. -/
structure ObservationRecord where
  station : String
  dataset : String
  message_id : String
  data_id : String
  time : Option Int
  publish_datetime : Int
  canonical_link : String
  raw_json : Payload
deriving DecidableEq, Repr

/-- The database state the message processor touches: the two catalogue
tables and the append-only observation log. -/
structure DB where
  stations : List Station
  datasets : List Dataset
  observations : List ObservationRecord
deriving DecidableEq, Repr

/-- `Station.objects.get(wigos_id=...)` (`wigos_id` is unique). -/
def findStation (db : DB) (wigos : String) : Option Station :=
  db.stations.find? (fun s => s.wigos_id == wigos)

/-- `Dataset.objects.get(identifier=...)` (`identifier` is unique). -/
def findDataset (db : DB) (ident : String) : Option Dataset :=
  db.datasets.find? (fun d => d.identifier == ident)

/-- External collaborators of `_prepare_observation_record`:
`datetime.fromisoformat` (returning `none` models the `ValueError` it
raises on an unparseable string) and `core.sync.sync_metadata`
(an arbitrary catalogue update performed over HTTP). -/
structure Env where
  fromisoformat : String → Option Int
  sync_metadata : Nat → DB → DB

/-- `dt_str.replace('Z', '+00:00')` (tasks.py lines 229 and 233). -/
def replaceZ (s : String) : String := s.replace "Z" "+00:00"

/-- The timestamp-parsing block of `_prepare_observation_record`
(tasks.py lines 223-237): `observation_datetime` starts as `None` and
`publish_datetime` as `now`; one `try` covers both walrus-guarded
parses, and a `ValueError` anywhere keeps whatever was assigned so far
(so a failure on `datetime` also skips the `pubtime` parse). -/
def parseTimestamps (env : Env) (now : Int) (dtStr pubStr : Option String) :
    Option Int × Int :=
  match truthyStr dtStr with
  | some s =>
    match env.fromisoformat (replaceZ s) with
    | none => (none, now)
    | some dt =>
      match truthyStr pubStr with
      | some ps =>
        match env.fromisoformat (replaceZ ps) with
        | none => (some dt, now)
        | some pt => (some dt, pt)
      | none => (some dt, now)
  | none =>
    match truthyStr pubStr with
    | some ps =>
      match env.fromisoformat (replaceZ ps) with
      | none => (none, now)
      | some pt => (none, pt)
    | none => (none, now)

/-- The canonical-link scan (tasks.py lines 240-241): the `href` (default
`''`) of the first link whose `rel` equals `'canonical'`, else `''`. -/
def canonicalLinkOf (links : List Link) : String :=
  match links.find? (fun l => l.rel == some "canonical") with
  | some l => l.href.getD ""
  | none => ""

/-- `_prepare_observation_record` (tasks.py lines 183-253): extract the
ids (any falsy one drops the message), look up the station with one
`sync_metadata` fallback, look up the dataset, parse the timestamps,
scan the links, and build the unsaved record. Returns the possibly
sync-updated catalogue together with `none` (drop) or the record. -/
def prepareObservationRecord (env : Env) (now : Int) (db : DB)
    (node_id : Nat) (payload : Payload) : DB × Option ObservationRecord :=
  let props := payload.properties.getD defaultProps
  match truthyStr payload.id, truthyStr props.wigos_station_identifier,
        truthyStr props.metadata_id with
  | some message_id, some wigos_id, some metadata_id =>
    let lookup : DB × Option Station :=
      match findStation db wigos_id with
      | some st => (db, some st)
      | none =>
        let db2 := env.sync_metadata node_id db
        (db2, findStation db2 wigos_id)
    match lookup.2 with
    | none => (lookup.1, none)
    | some station =>
      match findDataset lookup.1 metadata_id with
      | none => (lookup.1, none)
      | some dataset =>
        let times := parseTimestamps env now props.datetime props.pubtime
        (lookup.1, some
          { station := station.wigos_id, dataset := dataset.identifier,
            message_id := message_id, data_id := props.data_id.getD "",
            time := times.1, publish_datetime := times.2,
            canonical_link := canonicalLinkOf (payload.links.getD []),
            raw_json := payload })
  | _, _, _ => (db, none)

/-- The unique constraints of the `StationMQTTMessageLog` table that an
`ON CONFLICT` clause could act on. The model class (core/models.py lines
235-249) declares none: it has no `Meta.unique_together`, no
`UniqueConstraint`, and no unique field among `station`, `dataset`,
`message_id`, `data_id`, `publish_datetime`, `received_datetime`,
`canonical_link`, `raw_json`; the Timescale hypertable key is not unique
either. -/
def observationUniqueConstraints :
    List (ObservationRecord → ObservationRecord → Bool) := []

/-- Whether inserting `r` conflicts with a row of `existing` on some
unique constraint of the table. -/
def insertConflicts (existing : List ObservationRecord)
    (r : ObservationRecord) : Bool :=
  observationUniqueConstraints.any (fun u => existing.any (fun e => u r e))

/-- `StationMQTTMessageLog.objects.bulk_create(records, ignore_conflicts=True)`
(tasks.py lines 311-314): insert each record, silently skipping any whose
insertion would violate a unique constraint. -/
def bulkCreateIgnoreConflicts (db : DB)
    (records : List ObservationRecord) : DB :=
  let inserted :=
    records.foldl
      (fun obs r => if insertConflicts obs r then obs else obs ++ [r])
      db.observations
  { db with observations := inserted }

/-- `process_mqtt_message_batch` (tasks.py lines 286-321): prepare every
item of the batch in memory (items whose preparation returns `None` are
skipped), then bulk-insert the prepared records with
`ignore_conflicts=True` in one transaction. -/
def processMqttMessageBatch (env : Env) (now : Int) (db : DB)
    (batch : List MessageData) : DB :=
  let prepared :=
    batch.foldl
      (fun (acc : DB × List ObservationRecord) item =>
        let step := prepareObservationRecord env now acc.1 item.node_id item.payload
        match step.2 with
        | some rec => (step.1, acc.2 ++ [rec])
        | none => (step.1, acc.2))
      (db, [])
  bulkCreateIgnoreConflicts prepared.1 prepared.2

/-- `get_or_create(message_id=..., station=..., defaults=...)` as used by
the single-message task `process_mqtt_message` (tasks.py lines 267-278):
insert the record only when no row with the same `(message_id, station)`
pair exists. (Kept for contrast with the batch path, which has no such
key to dedupe on.) -/
def getOrCreateObservation (db : DB) (r : ObservationRecord) : DB :=
  if db.observations.any
      (fun e => e.message_id == r.message_id && e.station == r.station) then db
  else { db with observations := db.observations ++ [r] }

/-! ## Concrete fixtures (from the literal inputs of spec section 8) -/

/-- A running client in its post-connect state, with empty buffer and ring. -/
def baseClient : MQTTNodeClient :=
  { node_id := 1, is_connected := true, state := ClientState.CONNECTED,
    previous_state := some ClientState.CONNECTING, state_changed_at := 0,
    message_count := 0, last_message_time := none, messages_per_minute := 0,
    message_times := [], last_status_update := 0, last_ws_broadcast := 0,
    message_buffer := [], last_batch_flush := 0, last_error := none,
    error_count := 0 }

/-- A client held in the supervisor map whose broker session has dropped. -/
def discClient : MQTTNodeClient :=
  { baseClient with is_connected := false, state := ClientState.ERROR }

/-- A client held in the supervisor map with a live broker session. -/
def connClient : MQTTNodeClient :=
  { baseClient with node_id := 1 }

/-- The canonical link of the happy-path message `m1`. -/
def linkM1 : Link := { rel := some "canonical", href := some "https://x/m1" }

/-- The `properties` object of the happy-path message `m1`. -/
def propsM1 : Props :=
  { wigos_station_identifier := some "0-20000-0-12345",
    metadata_id := some "urn:x:ds1",
    datetime := some "2025-01-15T10:00:00Z",
    pubtime := some "2025-01-15T10:00:05Z",
    data_id := some "d1" }

/-- The happy-path payload `m1` of spec section 8, scenario 1. -/
def payloadM1 : Payload :=
  { id := some "m1", properties := some propsM1, links := some [linkM1] }

/-! ## Helper lemmas on the rate ring and the message handler -/

lemma length_lastN (n : Nat) (l : List Int) : (lastN n l).length ≤ n := by
  unfold lastN
  rw [List.length_drop]
  omega

lemma updateMessageTimes_length_le (times : List Int) (now : Int) :
    (updateMessageTimes times now).length ≤ MAX_MESSAGE_TIMES_STORED :=
  le_trans (List.length_filter_le _ _) (length_lastN _ _)

lemma updateMessageTimes_mem_recent (times : List Int) (now : Int) :
    ∀ t ∈ updateMessageTimes times now, now - MESSAGE_RATE_WINDOW < t := by
  intro t ht
  simp only [updateMessageTimes, List.mem_filter, decide_eq_true_eq] at ht
  exact ht.2

lemma mem_lastN_append_singleton (n : Nat) (l : List Int) (x : Int)
    (hn : 0 < n) : x ∈ lastN n (l ++ [x]) := by
  unfold lastN
  have hle : (l ++ [x]).length - n ≤ l.length := by
    simp only [List.length_append, List.length_singleton]
    omega
  rw [List.drop_append_of_le_length hle]
  simp

lemma updateMessageTimes_self_mem (times : List Int) (now : Int) :
    now ∈ updateMessageTimes times now := by
  unfold updateMessageTimes
  rw [List.mem_filter]
  refine ⟨mem_lastN_append_singleton _ _ _ (by norm_num [MAX_MESSAGE_TIMES_STORED]), ?_⟩
  have h : now - MESSAGE_RATE_WINDOW < now := by
    unfold MESSAGE_RATE_WINDOW
    omega
  exact decide_eq_true h

lemma onMessage_some (c : MQTTNodeClient) (now : Int) (topic : String)
    (p : Payload) :
    onMessage c now topic (some p) =
      { client :=
          { c with
            message_count := c.message_count + 1,
            last_message_time := some now,
            message_times := updateMessageTimes c.message_times now,
            messages_per_minute := (updateMessageTimes c.message_times now).length,
            message_buffer :=
              if BATCH_SIZE ≤ c.message_buffer.length + 1 ∨
                  BATCH_TIMEOUT ≤ now - c.last_batch_flush then []
              else c.message_buffer ++
                [{ node_id := c.node_id, topic := topic, payload := p,
                   timestamp := now }],
            last_batch_flush :=
              if BATCH_SIZE ≤ c.message_buffer.length + 1 ∨
                  BATCH_TIMEOUT ≤ now - c.last_batch_flush then now
              else c.last_batch_flush,
            last_ws_broadcast :=
              if WS_BROADCAST_MIN_INTERVAL ≤ now - c.last_ws_broadcast then now
              else c.last_ws_broadcast,
            last_status_update :=
              if STATUS_UPDATE_INTERVAL < now - c.last_status_update then now
              else c.last_status_update },
        flushed :=
          if BATCH_SIZE ≤ c.message_buffer.length + 1 ∨
              BATCH_TIMEOUT ≤ now - c.last_batch_flush then
            c.message_buffer ++
              [{ node_id := c.node_id, topic := topic, payload := p,
                 timestamp := now }]
          else [],
        ws_broadcast :=
          decide (WS_BROADCAST_MIN_INTERVAL ≤ now - c.last_ws_broadcast) } := by
  simp only [onMessage, flushBuffer, List.length_append, List.length_singleton]
  by_cases h1 : BATCH_SIZE ≤ c.message_buffer.length + 1 ∨
      BATCH_TIMEOUT ≤ now - c.last_batch_flush
  · have hb : (decide (BATCH_SIZE ≤ c.message_buffer.length + 1) ||
        decide (BATCH_TIMEOUT ≤ now - c.last_batch_flush)) = true := by
      rcases h1 with h | h <;> simp [h]
    simp only [hb, if_pos h1, if_true, List.isEmpty_eq_true,
      List.append_eq_nil, List.cons_ne_self, and_false, if_false]
    by_cases h2 : WS_BROADCAST_MIN_INTERVAL ≤ now - c.last_ws_broadcast <;>
      by_cases h3 : STATUS_UPDATE_INTERVAL < now - c.last_status_update <;>
      simp [h2, h3]
  · have hb : (decide (BATCH_SIZE ≤ c.message_buffer.length + 1) ||
        decide (BATCH_TIMEOUT ≤ now - c.last_batch_flush)) = false := by
      push_neg at h1
      simp [h1.1, h1.2]
    simp only [hb, if_neg h1, Bool.false_eq_true, if_false]
    by_cases h2 : WS_BROADCAST_MIN_INTERVAL ≤ now - c.last_ws_broadcast <;>
      by_cases h3 : STATUS_UPDATE_INTERVAL < now - c.last_status_update <;>
      simp [h2, h3]

lemma onMessage_ring (c : MQTTNodeClient) (now : Int) (topic : String)
    (decoded : Option Payload) :
    (onMessage c now topic decoded).client.message_times =
        updateMessageTimes c.message_times now ∧
    (onMessage c now topic decoded).client.messages_per_minute =
        (updateMessageTimes c.message_times now).length := by
  cases decoded with
  | none => exact ⟨rfl, rfl⟩
  | some p =>
    rw [onMessage_some]
    exact ⟨rfl, rfl⟩

/-! ## Claim theorems: the in-memory client -/

/-- C9 (confirmed): after every `_on_message` rate-ring update the ring
holds at most `MAX_MESSAGE_TIMES_STORED = 1000` timestamps, every retained
timestamp is newer than 60 seconds before the arrival instant, and the
messages-per-minute counter equals the ring length. -/
theorem rate_ring_invariant (c : MQTTNodeClient) (now : Int) (topic : String)
    (decoded : Option Payload) :
    (onMessage c now topic decoded).client.message_times.length ≤
        MAX_MESSAGE_TIMES_STORED ∧
    (∀ t ∈ (onMessage c now topic decoded).client.message_times,
        now - MESSAGE_RATE_WINDOW < t) ∧
    (onMessage c now topic decoded).client.messages_per_minute =
        (onMessage c now topic decoded).client.message_times.length := by
  obtain ⟨h1, h2⟩ := onMessage_ring c now topic decoded
  rw [h1, h2]
  exact ⟨updateMessageTimes_length_le _ _, updateMessageTimes_mem_recent _ _, rfl⟩

/-- C10 (confirmed): a message whose payload fails JSON decoding still
increments `message_count`, updates `last_message_time`, and enters the
rate ring (its arrival timestamp is retained); then `error_count` is
incremented and the handler returns with the batch buffer unchanged, no
flush and no WebSocket broadcast. -/
theorem decode_failure_frame (c : MQTTNodeClient) (now : Int) (topic : String) :
    (onMessage c now topic none).client.message_count = c.message_count + 1 ∧
    (onMessage c now topic none).client.last_message_time = some now ∧
    (onMessage c now topic none).client.message_times =
        updateMessageTimes c.message_times now ∧
    now ∈ (onMessage c now topic none).client.message_times ∧
    (onMessage c now topic none).client.error_count = c.error_count + 1 ∧
    (onMessage c now topic none).client.message_buffer = c.message_buffer ∧
    (onMessage c now topic none).flushed = [] ∧
    (onMessage c now topic none).ws_broadcast = false := by
  refine ⟨rfl, rfl, rfl, ?_, rfl, rfl, rfl, rfl⟩
  exact updateMessageTimes_self_mem c.message_times now

/-- C8 (confirmed): after `disconnect` the client is in state
DISCONNECTED with `is_connected` cleared, an empty batch buffer and a
cleared rate ring; running `disconnect` again on the already-stopped
client flushes nothing and ends in the same state, buffer and ring. -/
theorem stop_postcondition_idempotent (c : MQTTNodeClient) (t1 t2 : Int) :
    ((clientDisconnect t1 c).1.state = ClientState.DISCONNECTED ∧
     (clientDisconnect t1 c).1.is_connected = false ∧
     (clientDisconnect t1 c).1.message_buffer = [] ∧
     (clientDisconnect t1 c).1.message_times = []) ∧
    ((clientDisconnect t2 (clientDisconnect t1 c).1).2 = [] ∧
     (clientDisconnect t2 (clientDisconnect t1 c).1).1.state =
        ClientState.DISCONNECTED ∧
     (clientDisconnect t2 (clientDisconnect t1 c).1).1.is_connected = false ∧
     (clientDisconnect t2 (clientDisconnect t1 c).1).1.message_buffer = [] ∧
     (clientDisconnect t2 (clientDisconnect t1 c).1).1.message_times = []) := by
  cases hbuf : c.message_buffer <;>
    simp [clientDisconnect, changeState, flushBuffer, hbuf]

/-- C6 counterexample: with an empty buffer last flushed 6 seconds ago, a
single arriving message is flushed immediately (the code triggers on time
since the last flush), although the buffer holds 1 < 50 messages and its
oldest (only) entry has age 0 < `BATCH_TIMEOUT`, so the claim predicts
the buffer is retained. -/
theorem batch_flush_claim_counterexample :
    (onMessage baseClient 6000 "t1" (some payloadM1)).flushed =
      [{ node_id := 1, topic := "t1", payload := payloadM1, timestamp := 6000 }] ∧
    (onMessage baseClient 6000 "t1" (some payloadM1)).client.message_buffer = [] ∧
    ¬ (BATCH_SIZE ≤ 1 ∨ BATCH_TIMEOUT ≤ (6000 : Int) - 6000) := by
  refine ⟨by decide, by decide, ?_⟩
  simp [BATCH_SIZE, BATCH_TIMEOUT]

/-- C6 (amended): on each arrival of a decodable message the buffer (with
the new entry appended) is flushed exactly when its size reaches
`BATCH_SIZE = 50` or the time since the **last flush** reaches
`BATCH_TIMEOUT = 5` s; otherwise it is retained. -/
theorem batch_flush_trigger (c : MQTTNodeClient) (now : Int) (topic : String)
    (p : Payload) :
    ((onMessage c now topic (some p)).client.message_buffer,
     (onMessage c now topic (some p)).flushed) =
    (if BATCH_SIZE ≤ c.message_buffer.length + 1 ∨
        BATCH_TIMEOUT ≤ now - c.last_batch_flush then
      ([], c.message_buffer ++
        [{ node_id := c.node_id, topic := topic, payload := p, timestamp := now }])
     else
      (c.message_buffer ++
        [{ node_id := c.node_id, topic := topic, payload := p, timestamp := now }],
       [])) := by
  rw [onMessage_some]
  by_cases h1 : BATCH_SIZE ≤ c.message_buffer.length + 1 ∨
      BATCH_TIMEOUT ≤ now - c.last_batch_flush <;>
    simp [h1]

/-! ## Helper lemmas on the shared KV store -/

lemma cacheGet_set_self (cache : Cache) (key : String) (e : CacheEntry) :
    cacheGet (cacheSet cache key e) key = some e := by
  unfold cacheGet cacheSet
  simp [List.find?_cons]

lemma find?_filter_ne (cache : Cache) (key key2 : String) (h : ¬ key2 = key) :
    (cache.filter (fun p => p.1 != key)).find? (fun p => p.1 == key2) =
      cache.find? (fun p => p.1 == key2) := by
  induction cache with
  | nil => rfl
  | cons a l ih =>
    by_cases ha : a.1 = key
    · have hbeq : (key == key2) = false := by
        simp only [beq_eq_false_iff_ne]
        exact fun hk => h hk.symm
      simp [List.filter_cons, ha, List.find?_cons, hbeq, ih]
    · have hkeep : (a.1 != key) = true := by simp [ha]
      by_cases hk2 : (a.1 == key2) = true
      · simp [List.filter_cons, hkeep, List.find?_cons, hk2]
      · simp [List.filter_cons, hkeep, List.find?_cons, hk2, ih]

lemma cacheGet_set_ne (cache : Cache) (key key2 : String) (e : CacheEntry)
    (h : ¬ key2 = key) :
    cacheGet (cacheSet cache key e) key2 = cacheGet cache key2 := by
  have hne : ¬ ((key == key2) = true) := by
    simp only [beq_iff_eq]
    exact fun hk => h hk.symm
  unfold cacheGet cacheSet
  simp [List.find?_cons, hne, find?_filter_ne cache key key2 h]

/-! ## Claim theorems: the ownership lock -/

/-- C5 (confirmed): `_acquire_lock` succeeds in all three cases and
leaves the lock owned by the caller: when no lock exists it writes a
fresh lock for the caller with TTL `LOCK_TIMEOUT`; when the stored owner
is the caller it succeeds reentrantly (lock already owned by the
caller); when the stored owner differs it overwrites the lock with the
caller as owner and TTL `LOCK_TIMEOUT`. -/
theorem acquire_lock_succeeds_caller_owns (self : String) (now : Int)
    (node_id : Nat) (cache : Cache) :
    (acquireLock self now node_id cache).1 = true ∧
    (∃ e, cacheGet (acquireLock self now node_id cache).2 (getLockKey node_id) =
        some e ∧
      e.data.owner = self ∧
      (cacheGet cache (getLockKey node_id) = none →
        e.ttl = some LOCK_TIMEOUT ∧ e.data.acquired_at = now) ∧
      (∀ e0, cacheGet cache (getLockKey node_id) = some e0 →
        ¬ e0.data.owner = self →
        e.ttl = some LOCK_TIMEOUT ∧ e.data.acquired_at = now)) := by
  simp only [acquireLock]
  cases hget : cacheGet cache (getLockKey node_id) with
  | none =>
    dsimp only
    refine ⟨rfl, _, cacheGet_set_self _ _ _, rfl, fun _ => ⟨rfl, rfl⟩, ?_⟩
    intro e0 he0 _
    simp at he0
  | some e0 =>
    dsimp only
    by_cases howner : e0.data.owner = self
    · rw [if_pos howner]
      refine ⟨rfl, e0, hget, howner, ?_, ?_⟩
      · intro habs
        simp at habs
      · intro e1 he1 hne
        injection he1 with hh
        subst hh
        exact absurd howner hne
    · rw [if_neg howner]
      dsimp only
      refine ⟨rfl, _, cacheGet_set_self _ _ _, rfl, ?_, fun _ _ _ => ⟨rfl, rfl⟩⟩
      intro habs
      simp at habs

/-- Witness for C5: acquiring the lock of node 1 on an empty store
succeeds and installs the caller as owner with TTL `LOCK_TIMEOUT`. -/
theorem acquire_lock_succeeds_caller_owns_witness :
    (acquireLock "inst-a" 5 1 []).1 = true ∧
    ∃ e, cacheGet (acquireLock "inst-a" 5 1 []).2 (getLockKey 1) = some e ∧
      e.data.owner = "inst-a" ∧ e.ttl = some LOCK_TIMEOUT ∧
      e.data.acquired_at = 5 := by
  obtain ⟨h1, e, h2, h3, h4, h5⟩ := acquire_lock_succeeds_caller_owns "inst-a" 5 1 []
  obtain ⟨h6, h7⟩ := h4 rfl
  exact ⟨h1, e, h2, h3, h6, h7⟩

/-! ## Refresh-lock lemmas and claim C7 -/

lemma refreshLock_get_self (self : String) (now : Int) (nid : Nat)
    (cache : Cache) :
    ∃ e, cacheGet (refreshLock self now nid cache) (getLockKey nid) = some e ∧
      e.data.owner = self ∧ e.data.refreshed_at = some now ∧
      e.ttl = some LOCK_TIMEOUT := by
  unfold refreshLock
  exact ⟨_, cacheGet_set_self _ _ _, rfl, rfl, rfl⟩

lemma refreshLock_get_ne (self : String) (now : Int) (nid : Nat) (k : String)
    (cache : Cache) (h : ¬ k = getLockKey nid) :
    cacheGet (refreshLock self now nid cache) k = cacheGet cache k := by
  unfold refreshLock
  exact cacheGet_set_ne _ _ _ _ h

lemma refreshAllLocks_cons (self : String) (now : Int)
    (a : Nat × MQTTNodeClient) (l : List (Nat × MQTTNodeClient))
    (cache : Cache) :
    refreshAllLocks self now (a :: l) cache =
      refreshAllLocks self now l
        (if a.2.is_connected then refreshLock self now a.1 cache else cache) := rfl

lemma refreshAllLocks_get_of_forall_ne (self : String) (now : Int)
    (clients : List (Nat × MQTTNodeClient)) (cache : Cache) (k : String)
    (h : ∀ p ∈ clients, ¬ k = getLockKey p.1) :
    cacheGet (refreshAllLocks self now clients cache) k = cacheGet cache k := by
  induction clients generalizing cache with
  | nil => rfl
  | cons a l ih =>
    rw [refreshAllLocks_cons,
      ih _ (fun p hp => h p (List.mem_cons_of_mem a hp))]
    cases hc : a.2.is_connected
    · rw [if_neg (by simp)]
    · rw [if_pos rfl]
      exact refreshLock_get_ne _ _ _ _ _ (h a (List.mem_cons_self a l))

/-- C7 counterexample: a supervisor map holding the single client
`(1, discClient)` whose `is_connected` flag is false; after
`refresh_all_locks` the stored lock of node 1 is untouched (its
`refreshed_at` is still unset), although the claim requires the lock TTL
of every mapped node to be refreshed regardless of connection state. -/
theorem refresh_all_locks_claim_counterexample :
    (1, discClient) ∈ [(1, discClient)] ∧
    discClient.is_connected = false ∧
    refreshAllLocks "inst-a" 100
        [(1, discClient)]
        [(getLockKey 1,
          { data := { acquired_at := 0, node_id := 1, owner := "inst-a",
                      refreshed_at := none },
            ttl := some LOCK_TIMEOUT })] =
      [(getLockKey 1,
        { data := { acquired_at := 0, node_id := 1, owner := "inst-a",
                    refreshed_at := none },
          ttl := some LOCK_TIMEOUT })] := by
  refine ⟨List.mem_cons_self _ _, rfl, rfl⟩

/-- C7 (amended): `refresh_all_locks` refreshes the lock of exactly the
mapped nodes whose client has `is_connected = true`: for such a node the
stored lock afterwards is owned by the caller with `refreshed_at = now`
and TTL `LOCK_TIMEOUT`; for a mapped node whose client has
`is_connected = false` the cache slot is left unchanged. (The map has
one entry per node id, so distinct entries have distinct lock keys.) -/
theorem refresh_all_locks_only_connected (self : String) (now : Int)
    (clients : List (Nat × MQTTNodeClient)) (cache : Cache)
    (nid : Nat) (c : MQTTNodeClient)
    (hmem : (nid, c) ∈ clients)
    (hkeys : clients.Pairwise (fun p q => ¬ getLockKey p.1 = getLockKey q.1)) :
    (c.is_connected = true →
      ∃ e, cacheGet (refreshAllLocks self now clients cache) (getLockKey nid) =
          some e ∧
        e.data.owner = self ∧ e.data.refreshed_at = some now ∧
        e.ttl = some LOCK_TIMEOUT) ∧
    (c.is_connected = false →
      cacheGet (refreshAllLocks self now clients cache) (getLockKey nid) =
        cacheGet cache (getLockKey nid)) := by
  induction clients generalizing cache with
  | nil => cases hmem
  | cons a l ih =>
    rw [List.pairwise_cons] at hkeys
    obtain ⟨hhead, htail⟩ := hkeys
    rcases List.mem_cons.mp hmem with heq | hmem2
    · subst heq
      constructor
      · intro hconn
        rw [refreshAllLocks_cons, if_pos hconn,
          refreshAllLocks_get_of_forall_ne self now l _ _
            (fun p hp => hhead p hp)]
        exact refreshLock_get_self self now nid cache
      · intro hdisc
        rw [refreshAllLocks_cons, if_neg (by simp [hdisc]),
          refreshAllLocks_get_of_forall_ne self now l _ _
            (fun p hp => hhead p hp)]
    · have hne : ¬ getLockKey nid = getLockKey a.1 :=
        fun hk => (hhead (nid, c) hmem2) hk.symm
      have hstep :
          cacheGet
            (if a.2.is_connected = true then refreshLock self now a.1 cache
             else cache) (getLockKey nid) =
          cacheGet cache (getLockKey nid) := by
        cases hc : a.2.is_connected
        · rw [if_neg (by simp)]
        · rw [if_pos rfl]
          exact refreshLock_get_ne _ _ _ _ _ hne
      rw [refreshAllLocks_cons]
      obtain ⟨ih1, ih2⟩ := ih _ hmem2 htail
      exact ⟨ih1, fun hdisc => (ih2 hdisc).trans hstep⟩

/-- Witness for C7 (amended): in a map holding a connected client for
node 1 and a disconnected client for node 2, the node-1 lock comes out
refreshed. -/
theorem refresh_all_locks_only_connected_witness :
    ∃ e, cacheGet
        (refreshAllLocks "inst-a" 100 [(1, connClient), (2, discClient)] [])
        (getLockKey 1) = some e ∧
      e.data.owner = "inst-a" ∧ e.data.refreshed_at = some 100 ∧
      e.ttl = some LOCK_TIMEOUT := by
  have h := refresh_all_locks_only_connected "inst-a" 100
    [(1, connClient), (2, discClient)] [] 1 connClient
    (List.mem_cons_self _ _)
    (by
      rw [List.pairwise_cons]
      refine ⟨?_, List.pairwise_singleton _ _⟩
      intro q hq
      rw [List.mem_singleton] at hq
      subst hq
      decide)
  exact h.1 rfl

/-! ## Claims C2 and C4: reconciliation loop and client setup -/

/-- An active node with a non-empty broker host, as in spec section 8
scenario 1 (`host="broker.example", port=1883`). -/
def nodeBroker : WIS2Node :=
  { id := 1, name := "Test Node", mqtt_host := "broker.example",
    mqtt_port := 1883, mqtt_username := "", mqtt_password := "",
    mqtt_use_tls := false, status := "active" }

/-- C2 (code bug, evaluated at the failing input): for the active node
`nodeBroker` with non-empty host and no lock in the store,
`monitor_all_active_nodes` enqueues **no** start task at all — the
`node.lock_key` attribute read aborts the loop before the first enqueue —
although the claim requires `start(1)` to be enqueued. -/
theorem monitor_all_active_enqueues_nothing :
    nodeBroker.status = "active" ∧
    ¬ nodeBroker.mqtt_host = "" ∧
    cacheGet [] (getLockKey nodeBroker.id) = none ∧
    monitorAllActiveNodes [nodeBroker] [] = [] := by
  refine ⟨rfl, by decide, rfl, rfl⟩

/-- A node configured with TLS enabled and full credentials. -/
def nodeTls : WIS2Node :=
  { nodeBroker with
    id := 2,
    mqtt_use_tls := true,
    mqtt_username := "user",
    mqtt_password := "pass" }

/-- C4 (code bug, evaluated at the failing input): for the node
`nodeTls` with `mqtt_use_tls = true`, the paho client built by
`start_node` via `_setup_client` has no TLS configured (there is no
`tls_set` call on this path), while the credentials half of the claim
does hold: username and password are installed. -/
theorem start_node_never_configures_tls :
    nodeTls.mqtt_use_tls = true ∧
    (startNodeClientSetup nodeTls 0).tls_configured = false ∧
    (startNodeClientSetup nodeTls 0).username = some "user" ∧
    (startNodeClientSetup nodeTls 0).password = some "pass" := by
  refine ⟨rfl, ?_, ?_, ?_⟩ <;> decide

/-! ## Claims C1 and C3: the persistence pipeline -/

/-- The catalogue station of spec section 8, scenario 1. -/
def stationS : Station := { wigos_id := "0-20000-0-12345" }

/-- The catalogue dataset of spec section 8, scenario 1. -/
def datasetD : Dataset := { identifier := "urn:x:ds1" }

/-- A catalogue holding exactly that station and dataset, with an empty
observation log. -/
def dbCatalogue : DB :=
  { stations := [stationS], datasets := [datasetD], observations := [] }

/-- Concrete external collaborators for evaluating the pipeline: the
datetime parser accepts every string, returning the fixed instant
1736935200000 ms (the settled properties do not depend on the parsed
value); the catalogue synchroniser is the identity (it is never invoked
in these runs, the station being present). -/
def envConcrete : Env :=
  { fromisoformat := fun _ => some 1736935200000,
    sync_metadata := fun _ db => db }

/-- The buffered batch entry carrying `m1`. -/
def itemM1 : MessageData :=
  { node_id := 1, topic := "origin/a/wis2/x/data/core/weather/surface/synop",
    payload := payloadM1, timestamp := 1736935205000 }

/-- The record `_prepare_observation_record` builds for `m1` under
`envConcrete`. -/
def recM1 : ObservationRecord :=
  { station := "0-20000-0-12345", dataset := "urn:x:ds1", message_id := "m1",
    data_id := "d1", time := some 1736935200000,
    publish_datetime := 1736935200000, canonical_link := "https://x/m1",
    raw_json := payloadM1 }

/-- C1 (code bug, evaluated at the failing input): delivering the
happy-path message `m1` twice through `process_mqtt_message_batch`
persists **two** rows with the same `(message_id, station)` pair — the
`StationMQTTMessageLog` table declares no unique constraint for
`ignore_conflicts=True` to act on — although the claim requires exactly
one row; for contrast, the single-message path's `get_or_create`, keyed
on `(message_id, station)`, keeps exactly one row under the same double
delivery. -/
theorem duplicate_delivery_two_rows :
    (prepareObservationRecord envConcrete 1736935205000 dbCatalogue 1
        payloadM1).2 = some recM1 ∧
    ((processMqttMessageBatch envConcrete 1736935205000
        (processMqttMessageBatch envConcrete 1736935205000 dbCatalogue [itemM1])
        [itemM1]).observations.filter
      (fun r => r.message_id == "m1" &&
        r.station == "0-20000-0-12345")).length = 2 ∧
    ((getOrCreateObservation (getOrCreateObservation dbCatalogue recM1)
        recM1).observations.filter
      (fun r => r.message_id == "m1" &&
        r.station == "0-20000-0-12345")).length = 1 := by
  refine ⟨?_, ?_, ?_⟩ <;> decide

/-- The `properties` of `m1` with the `datetime` key removed. -/
def propsM1NoDt : Props := { propsM1 with datetime := none }

/-- The payload `m1` without `properties.datetime`. -/
def payloadNoDt : Payload := { payloadM1 with properties := some propsM1NoDt }

/-- The buffered batch entry carrying the datetime-less payload. -/
def itemNoDt : MessageData := { itemM1 with payload := payloadNoDt }

/-- The record prepared for the datetime-less variant of `m1`: its
time-series timestamp is `none`. -/
def recNoDt : ObservationRecord :=
  { recM1 with time := none, raw_json := payloadNoDt }

/-- Collaborator set whose datetime parser rejects every string,
modelling `ValueError` on unparseable RFC-3339 input. -/
def envRejectAll : Env :=
  { fromisoformat := fun _ => none,
    sync_metadata := fun _ db => db }

/-- C3 (code bug, evaluated at the failing input): a message lacking
`properties.datetime` is **not** dropped: `_prepare_observation_record`
returns a record with `time = None`, and the batch task hands that
record to the bulk insert (one row in the log); likewise a message whose
`datetime` fails parsing (a parser rejecting every string) yields a
prepared record with `time = None` instead of being dropped. -/
theorem missing_datetime_not_dropped :
    (prepareObservationRecord envConcrete 1736935205000 dbCatalogue 1
        payloadNoDt).2 = some recNoDt ∧
    (processMqttMessageBatch envConcrete 1736935205000 dbCatalogue
        [itemNoDt]).observations = [recNoDt] ∧
    ((prepareObservationRecord envRejectAll 1736935205000 dbCatalogue 1
        payloadM1).2.map (fun r => r.time)) = some none := by
  refine ⟨?_, ?_, ?_⟩ <;> decide

end Wis2Watch
